import Mathlib

/-!
Verification of the dcm_pool dynamic contiguous-memory object pool.

This file gives a shallow embedding of the pool implementation found in
`include/dcm_pool/_objects_pool_imp.h`, `_holes_list_imp.h`,
`_object_ptr_imp.h` and `_object_in_pool_imp.h`, and proves or refutes the
specified properties of the pool against it.

Modelling conventions:
- `size_t` values are natural numbers; the places where the C++ code can
  wrap around (the `--` decrements of `_max_used_index_in_vector` and
  `_allocated_objects_count`, the `+ 1` on the frontier, and the size_t
  subtraction in the shrink test) are modelled with explicit `% 2^64`
  arithmetic (`wdec`, `wsub`).  `unsigned int _defrags_count` wraps at
  `2^32`.
- The payload type `T` is instantiated with `Nat`; the move-assignment
  `ObjectInPool::operator=(&&)` copies the payload and resets the source's
  id and in-use flag as the C++ does.
- `std::vector` is a `List`; `operator[]` reads out of bounds are undefined
  behaviour in C++ and are modelled by returning a default-constructed
  element (`getSlot`), writes out of bounds are modelled as no-ops
  (`List.set` semantics).  All concrete scenarios below stay in bounds, so
  there this choice is irrelevant.
- `std::unordered_map<ObjectId, size_t> _pointers` is an association list
  with unique keys.  `operator[]` on an absent key inserts a
  default-initialised value `0` exactly as in C++ (`bracketPtr`);
  `.at` on an absent key corresponds to the thrown `std::out_of_range`.
- A C++ `throw` is modelled by returning the error alongside the state the
  pool was left in at the throw point (mutations before the throw persist,
  as they do for the real pool object).
- `ObjectPtr`'s cached raw pointer `T* _cached_ptr` is modelled as the slot
  index it pointed to when cached; this is address-faithful as long as the
  vector has not reallocated, which holds in every scenario used below.
- Callbacks passed to `Iterate`/`IterateEx` are pure functions; `Iterate`
  is modelled by the list of `(object, id)` visits it performs, in order.
-/

deriving instance DecidableEq for Except

namespace DcmPool

/-- Modulus of `size_t` (64-bit). -/
def W : Nat := 18446744073709551616

/-- Modulus of `unsigned int` (32-bit), the type of `_defrags_count`. -/
def UINTW : Nat := 4294967296

/-- `ObjectPoolMaxIndex = std::numeric_limits<std::size_t>::max()` from defs.h. -/
def ObjectPoolMaxIndex : Nat := W - 1

/-- `x--` on a `size_t` variable: wraps to `2^64 - 1` below zero. -/
def wdec (x : Nat) : Nat := (x + (W - 1)) % W

/-- `a - b` on `size_t` values (both assumed `< 2^64`): wraps modulo `2^64`. -/
def wsub (a b : Nat) : Nat := (a + (W - b % W)) % W

/-- `enum DefragModes` from defs.h. -/
inductive DefragModes where
  | DEFRAG_IMMEDIATE
  | DEFRAG_DEFERRED
  | DEFRAG_MANUAL
deriving DecidableEq, Repr

/-- `enum IterationReturnCode` from defs.h. -/
inductive IterationReturnCode where
  | ITER_CONTINUE
  | ITER_BREAK
deriving DecidableEq, Repr

/-- The exceptions of exceptions.h, plus the `std::out_of_range` that
`unordered_map::at` throws in `ObjectsPool::_get_object`. -/
inductive PoolError where
  | ExceededPoolLimit
  | AccessViolation
  | CannotResizeWhileNotDefragged
  | StdOutOfRange
deriving DecidableEq, Repr

/-- `ObjectInPool<T>` (object_in_pool.h) with `T = Nat`: payload, id, in-use flag. -/
structure ObjectInPool where
  obj : Nat
  id : Nat
  is_used : Bool
deriving DecidableEq, Repr

/-- `ObjectInPool<T>()`: default constructor gives `_id = 0`, `_is_used = false`. -/
def defaultObjectInPool : ObjectInPool := { obj := 0, id := 0, is_used := false }

/-- State of `ObjectsPool<T>` (objects_pool.h), including the two fields of
the embedded `HolesList` (`holes_size`, `holes_first`).  `_holes._first_index`
is uninitialised in the C++ constructor and is modelled as 0 (it is never
read while `holes_size = 0`). -/
structure ObjectsPool where
  objects : List ObjectInPool
  pointers : List (Nat × Nat)
  holes_size : Nat
  holes_first : Nat
  next_object_id : Nat
  max_size : Nat
  allocated_objects_count : Nat
  max_used_index_in_vector : Nat
  shrink_pool_threshold : Nat
  defrag_mode : DefragModes
  defrags_count : Nat
deriving DecidableEq, Repr

/-- `ObjectPtr<T>` (object_ptr.h): id, cached pointer (as the slot index it
addressed when cached), and the pool defrag version at caching time. -/
structure ObjectPtr where
  id : Nat
  cached_idx : Nat
  pool_defrag_version : Nat
deriving DecidableEq, Repr

/-- `_objects[i]` read; out of bounds yields a default element (UB in C++). -/
def getSlot (p : ObjectsPool) (i : Nat) : ObjectInPool :=
  p.objects.getD i defaultObjectInPool

/-- Lookup in the `_pointers` map (first matching key). -/
def lookupPtr : List (Nat × Nat) → Nat → Option Nat
  | [], _ => none
  | (k, v) :: rest, key => if k = key then some v else lookupPtr rest key

/-- `_pointers[key] = val`: update the existing entry or insert a new one. -/
def setPtr : List (Nat × Nat) → Nat → Nat → List (Nat × Nat)
  | [], key, val => [(key, val)]
  | (k, v) :: rest, key, val =>
    if k = key then (key, val) :: rest else (k, v) :: setPtr rest key val

/-- `_pointers.erase(key)`. -/
def erasePtr : List (Nat × Nat) → Nat → List (Nat × Nat)
  | [], _ => []
  | (k, v) :: rest, key => if k = key then rest else (k, v) :: erasePtr rest key

/-- `_pointers[key]` as an rvalue: C++ `unordered_map::operator[]` inserts a
value-initialised entry (`0`) when the key is absent, and returns it. -/
def bracketPtr (m : List (Nat × Nat)) (key : Nat) : Nat × List (Nat × Nat) :=
  match lookupPtr m key with
  | some v => (v, m)
  | none => (0, m ++ [(key, 0)])

/-- `HolesList<T>::push_back` (_holes_list_imp.h): thread the previous head
through the freed slot's id field, then set the new head. -/
def holes_push (p : ObjectsPool) (hole_index : Nat) : ObjectsPool :=
  let p1 :=
    if p.holes_size ≠ 0 then
      { p with objects :=
          p.objects.set hole_index { getSlot p hole_index with id := p.holes_first } }
    else p
  { p1 with holes_first := hole_index, holes_size := p1.holes_size + 1 }

/-- `HolesList<T>::pop_back` (_holes_list_imp.h).  The C++ code throws
`std::out_of_range` when the list is empty; both call sites in the pool
guard on `_holes.size()` first, so that branch is unreachable and is
modelled as returning the state unchanged. -/
def holes_pop (p : ObjectsPool) : Nat × ObjectsPool :=
  if p.holes_size = 0 then (p.holes_first, p)
  else if p.holes_size = 1 then (p.holes_first, { p with holes_size := 0 })
  else (p.holes_first,
    { p with holes_first := (getSlot p p.holes_first).id,
             holes_size := p.holes_size - 1 })

/-- `ObjectsPool<T>::AssignObject` (_objects_pool_imp.h, lines 72-95). -/
def AssignObject (p : ObjectsPool) (index : Nat) : ObjectsPool × ObjectPtr :=
  let live := p.allocated_objects_count + 1
  let frontier :=
    if index > p.max_used_index_in_vector then index else p.max_used_index_in_vector
  let new_id := p.next_object_id
  let slot := { getSlot p index with id := new_id, is_used := true }
  let p1 := { p with
    allocated_objects_count := live,
    max_used_index_in_vector := frontier,
    objects := p.objects.set index slot,
    next_object_id := (p.next_object_id + 1) % W,
    pointers := setPtr p.pointers new_id index }
  (p1, { id := new_id, cached_idx := index, pool_defrag_version := p.defrags_count })

/-- `ObjectsPool<T>::Alloc` (_objects_pool_imp.h, lines 38-70). -/
def Alloc (p : ObjectsPool) : Except PoolError (ObjectsPool × ObjectPtr) :=
  if p.max_size ≠ 0 ∧ p.allocated_objects_count ≥ p.max_size then
    Except.error PoolError.ExceededPoolLimit
  else if p.holes_size ≠ 0 then
    let popped := holes_pop p
    Except.ok (AssignObject popped.2 popped.1)
  else if (p.max_used_index_in_vector + 1) % W < p.objects.length then
    Except.ok (AssignObject p ((p.max_used_index_in_vector + 1) % W))
  else
    let index := p.objects.length
    Except.ok (AssignObject { p with objects := p.objects ++ [defaultObjectInPool] } index)

/-- The `do { _max_used_index_in_vector--; } while (...)` walk of Defrag
after the initial decrement: keep decrementing while the index is positive
and the slot there is not in use. -/
def shrink_frontier_loop (objects : List ObjectInPool) : Nat → Nat
  | 0 => 0
  | Nat.succ f =>
    if (objects.getD (Nat.succ f) defaultObjectInPool).is_used then Nat.succ f
    else shrink_frontier_loop objects f

/-- One iteration of the hole-closing loop of `ObjectsPool<T>::Defrag`
(_objects_pool_imp.h, lines 180-203): pop a hole; skip it if it is at or
beyond `_max_used_index_in_vector`; otherwise move the slot at the frontier
into the hole (move assignment: the source slot's id becomes
`ObjectPoolMaxIndex` and it is marked unused), walk the frontier down past
unused slots, and point the moved slot's id at its new index. -/
def defrag_close_one (p : ObjectsPool) : ObjectsPool :=
  let popped := holes_pop p
  let index_to_fill := popped.1
  let p1 := popped.2
  if index_to_fill ≥ p1.max_used_index_in_vector then p1
  else
    let src := getSlot p1 p1.max_used_index_in_vector
    let moved : ObjectInPool := { obj := src.obj, id := src.id, is_used := src.is_used }
    let objs :=
      (p1.objects.set index_to_fill moved).set p1.max_used_index_in_vector
        { src with id := ObjectPoolMaxIndex, is_used := false }
    let new_frontier := shrink_frontier_loop objs (wdec p1.max_used_index_in_vector)
    let ptrs :=
      setPtr p1.pointers (objs.getD index_to_fill defaultObjectInPool).id index_to_fill
    { p1 with objects := objs, max_used_index_in_vector := new_frontier, pointers := ptrs }

/-- The `while (_holes.size())` loop of Defrag; each iteration pops exactly
one hole, so `holes_size` itself bounds the iteration count and serves as
structural fuel. -/
def close_holes : Nat → ObjectsPool → ObjectsPool
  | 0, p => p
  | Nat.succ fuel, p =>
    if p.holes_size = 0 then p else close_holes fuel (defrag_close_one p)

/-- `std::vector::resize(n)` with default-constructed fill. -/
def list_resize (l : List ObjectInPool) (n : Nat) : List ObjectInPool :=
  if n ≤ l.length then l.take n
  else l ++ List.replicate (n - l.length) defaultObjectInPool

/-- `ObjectsPool<T>::ClearUnusedMemory` (_objects_pool_imp.h, lines 259-270):
throws `CannotResizeWhileNotDefragged` when holes remain, else resizes the
vector to `_max_used_index_in_vector + 1`. -/
def ClearUnusedMemory (p : ObjectsPool) : ObjectsPool × Option PoolError :=
  if p.holes_size ≠ 0 then (p, some PoolError.CannotResizeWhileNotDefragged)
  else
    ({ p with objects := list_resize p.objects ((p.max_used_index_in_vector + 1) % W) },
      none)

/-- `ObjectsPool<T>::Defrag` (_objects_pool_imp.h, lines 167-210). -/
def Defrag (p : ObjectsPool) : ObjectsPool :=
  if p.holes_size = 0 then p
  else
    let p1 := { p with defrags_count := (p.defrags_count + 1) % UINTW }
    let p2 := close_holes p1.holes_size p1
    if wsub p2.objects.length p2.max_used_index_in_vector > p2.shrink_pool_threshold then
      (ClearUnusedMemory p2).1
    else p2

/-- `ObjectsPool<T>::Release(ObjectId)` (_objects_pool_imp.h, lines 111-148).
Note that `_pointers[id]` inserts a default entry `id -> 0` when `id` is
absent from the map, exactly as `unordered_map::operator[]` does. -/
def Release (p : ObjectsPool) (id : Nat) : ObjectsPool × Option PoolError :=
  let br := bracketPtr p.pointers id
  let index := br.1
  let p0 := { p with pointers := br.2 }
  let obj_ref := getSlot p0 index
  if ¬obj_ref.is_used then (p0, some PoolError.AccessViolation)
  else
    let p1 := { p0 with
      pointers := erasePtr p0.pointers id,
      allocated_objects_count := wdec p0.allocated_objects_count,
      objects := p0.objects.set index { obj_ref with is_used := false } }
    if index = p1.max_used_index_in_vector then
      ({ p1 with max_used_index_in_vector := wdec p1.max_used_index_in_vector }, none)
    else
      let p2 := holes_push p1 index
      if p2.defrag_mode = DefragModes.DEFRAG_IMMEDIATE then (Defrag p2, none)
      else (p2, none)

/-- `ObjectsPool<T>::Clear` (_objects_pool_imp.h, lines 156-165).
`HolesList::clear` only resets `_size`; `_defrags_count` is not reset. -/
def Clear (p : ObjectsPool) : ObjectsPool :=
  { p with pointers := [], objects := [], holes_size := 0,
           allocated_objects_count := 0, next_object_id := 0,
           max_used_index_in_vector := 0 }

/-- The `ObjectsPool` constructor (_objects_pool_imp.h, lines 20-36).
`reserve` only pre-allocates vector capacity, which has no observable
effect in this model. -/
def mkPool (max_size _reserve shrink_threshold : Nat) (defrag_mode : DefragModes) :
    ObjectsPool :=
  { objects := [], pointers := [], holes_size := 0, holes_first := 0,
    next_object_id := 0, max_size := max_size, allocated_objects_count := 0,
    max_used_index_in_vector := 0, shrink_pool_threshold := shrink_threshold,
    defrag_mode := defrag_mode, defrags_count := 0 }

/-- The visits performed by the scan loop of `ObjectsPool<T>::Iterate`
(lines 248-256): indices `0..=_max_used_index_in_vector`, in order, calling
the callback with `(object, id)` on each in-use slot. -/
def iterate_scan (p : ObjectsPool) : List (Nat × Nat) :=
  (List.range (p.max_used_index_in_vector + 1)).filterMap fun i =>
    let s := getSlot p i
    if s.is_used then some (s.obj, s.id) else none

/-- `ObjectsPool<T>::Iterate` (_objects_pool_imp.h, lines 239-257): Defrag
first when in deferred mode, then scan.  The result is the final pool state
and the ordered list of callback invocations. -/
def Iterate (p : ObjectsPool) : ObjectsPool × List (Nat × Nat) :=
  let p1 := if p.defrag_mode = DefragModes.DEFRAG_DEFERRED then Defrag p else p
  (p1, iterate_scan p1)

/-- Scan loop of `ObjectsPool<T>::IterateEx` (lines 227-236) with a pure
callback: visit in-use slots from index `i` with `fuel` indices remaining;
a callback returning `ITER_BREAK` stops the scan after that visit. -/
def iter_ex_go (objects : List ObjectInPool) (cb : Nat → Nat → IterationReturnCode) :
    Nat → Nat → List (Nat × Nat)
  | 0, _ => []
  | Nat.succ fuel, i =>
    let s := objects.getD i defaultObjectInPool
    if s.is_used then
      if cb s.obj s.id = IterationReturnCode.ITER_BREAK then [(s.obj, s.id)]
      else (s.obj, s.id) :: iter_ex_go objects cb fuel (i + 1)
    else iter_ex_go objects cb fuel (i + 1)

/-- `ObjectsPool<T>::IterateEx` (_objects_pool_imp.h, lines 218-237). -/
def IterateEx (cb : Nat → Nat → IterationReturnCode) (p : ObjectsPool) :
    ObjectsPool × List (Nat × Nat) :=
  let p1 := if p.defrag_mode = DefragModes.DEFRAG_DEFERRED then Defrag p else p
  (p1, iter_ex_go p1.objects cb (p1.max_used_index_in_vector + 1) 0)

/-- `ObjectPtr<T>::operator*` (_object_ptr_imp.h, lines 32-46) combined with
`ObjectsPool<T>::_get_object` (lines 97-103): return the cached pointer when
the cached defrag version matches the pool's count (no validity check at
all); otherwise look the id up in `_pointers` — `.at` throws
`std::out_of_range` when the id is absent — and refresh the cache. -/
def derefPtr (p : ObjectsPool) (ptr : ObjectPtr) : Except PoolError (Nat × ObjectPtr) :=
  if ptr.pool_defrag_version = p.defrags_count then
    Except.ok ((getSlot p ptr.cached_idx).obj, ptr)
  else
    match lookupPtr p.pointers ptr.id with
    | none => Except.error PoolError.StdOutOfRange
    | some index =>
      Except.ok ((getSlot p index).obj,
        { ptr with cached_idx := index, pool_defrag_version := p.defrags_count })

/-- Project a successful `Alloc`; used only to build scenario states whose
allocations are separately shown (by evaluation) to succeed. -/
def allocResult (p : ObjectsPool) : ObjectsPool × ObjectPtr :=
  match Alloc p with
  | Except.ok r => r
  | Except.error _ => (p, { id := 0, cached_idx := 0, pool_defrag_version := 0 })

/-- The entries `(object, id)` of the in-use slots of a slot array, in
index order: one entry per live object. -/
def usedEntries (l : List ObjectInPool) : List (Nat × Nat) :=
  l.filterMap fun s => if s.is_used then some (s.obj, s.id) else none

/-! ### Concrete scenario states

All of the following states are reachable from a freshly constructed pool by
the public operations, and every vector access they perform is in bounds, so
the model evaluates them exactly as the C++ does. -/

/-- A pool holding a single object (id 0 at slot 0), manual defrag mode. -/
def poolOne : ObjectsPool :=
  (allocResult (mkPool 0 0 1024 DefragModes.DEFRAG_MANUAL)).1

/-- The handle returned by the `Alloc` that created `poolOne`. -/
def ptrOne : ObjectPtr :=
  (allocResult (mkPool 0 0 1024 DefragModes.DEFRAG_MANUAL)).2

/-- `poolOne` after `Release(0)`: the only object has been released. -/
def poolOneReleased : ObjectsPool := (Release poolOne 0).1

/-- Pool with three live objects (ids 0, 1, 2 at slots 0, 1, 2), manual mode. -/
def poolThree : ObjectsPool :=
  (allocResult (allocResult (allocResult
    (mkPool 0 0 1024 DefragModes.DEFRAG_MANUAL)).1).1).1

/-- `poolThree` after `Release(1)` (creates the hole at slot 1) and then
`Release(2)` (trivial tail release: the frontier steps down onto the freed
slot 1, which is still on the free-list). -/
def poolFrontierHole : ObjectsPool := (Release (Release poolThree 1).1 2).1

/-- `poolFrontierHole` with the defrag counter already bumped, i.e. the state
on which `Defrag`'s hole-closing loop actually runs. -/
def poolFrontierHoleBumped : ObjectsPool :=
  { poolFrontierHole with defrags_count := 1 }

/-- Three live objects in a pool whose `shrink_threshold` is 1, manual mode. -/
def poolThreeT1 : ObjectsPool :=
  (allocResult (allocResult (allocResult
    (mkPool 0 0 1 DefragModes.DEFRAG_MANUAL)).1).1).1

/-- `poolThreeT1` after `Release(1)`: one hole at slot 1, frontier 2. -/
def poolShrinkPre : ObjectsPool := (Release poolThreeT1 1).1

/-- A full pool with `max_size = 1` (one live object). -/
def poolCap : ObjectsPool :=
  (allocResult (mkPool 1 0 1024 DefragModes.DEFRAG_MANUAL)).1

/-- Deferred-mode pool with three objects of which id 0 was released,
leaving a hole at slot 0. -/
def poolDeferredHole : ObjectsPool :=
  (Release (allocResult (allocResult (allocResult
    (mkPool 0 0 1024 DefragModes.DEFRAG_DEFERRED)).1).1).1 0).1

/-! ### Helper lemmas -/

theorem lookupPtr_setPtr_self (m : List (Nat × Nat)) (k v : Nat) :
    lookupPtr (setPtr m k v) k = some v := by
  induction m with
  | nil => simp [setPtr, lookupPtr]
  | cons head rest ih =>
    obtain ⟨a, b⟩ := head
    by_cases hak : a = k
    · simp [setPtr, lookupPtr, hak]
    · simp [setPtr, lookupPtr, hak, ih]

theorem holes_pop_fst (p : ObjectsPool) : (holes_pop p).1 = p.holes_first := by
  unfold holes_pop; split <;> [rfl; split <;> rfl]

theorem holes_pop_objects (p : ObjectsPool) : (holes_pop p).2.objects = p.objects := by
  unfold holes_pop; split <;> [rfl; split <;> rfl]

theorem holes_pop_frontier (p : ObjectsPool) :
    (holes_pop p).2.max_used_index_in_vector = p.max_used_index_in_vector := by
  unfold holes_pop; split <;> [rfl; split <;> rfl]

theorem holes_pop_pointers (p : ObjectsPool) :
    (holes_pop p).2.pointers = p.pointers := by
  unfold holes_pop; split <;> [rfl; split <;> rfl]

theorem holes_pop_size (p : ObjectsPool) (h : p.holes_size ≠ 0) :
    (holes_pop p).2.holes_size = p.holes_size - 1 := by
  unfold holes_pop
  rcases eq_or_ne p.holes_size 1 with h1 | h1 <;> simp [h, h1]

theorem defrag_close_one_size (p : ObjectsPool) (h : p.holes_size ≠ 0) :
    (defrag_close_one p).holes_size = p.holes_size - 1 := by
  by_cases hc : (holes_pop p).1 ≥ (holes_pop p).2.max_used_index_in_vector <;>
    simp [defrag_close_one, hc, holes_pop_size p h]

theorem close_holes_size (n : Nat) :
    ∀ p : ObjectsPool, p.holes_size ≤ n → (close_holes n p).holes_size = 0 := by
  induction n with
  | zero => intro p hp; simpa [close_holes] using Nat.le_zero.mp hp
  | succ n ih =>
    intro p hp
    unfold close_holes
    split
    · assumption
    · rename_i hne
      exact ih _ (by rw [defrag_close_one_size p hne]; omega)

theorem ClearUnusedMemory_fst_holes_size (p : ObjectsPool) :
    (ClearUnusedMemory p).1.holes_size = p.holes_size := by
  unfold ClearUnusedMemory; split <;> rfl

theorem shrink_frontier_loop_le (objs : List ObjectInPool) :
    ∀ f, shrink_frontier_loop objs f ≤ f := by
  intro f
  induction f with
  | zero => simp [shrink_frontier_loop]
  | succ f ih =>
    unfold shrink_frontier_loop
    split
    · exact Nat.le_refl _
    · exact Nat.le_trans ih (Nat.le_succ f)

theorem shrink_frontier_loop_stop (objs : List ObjectInPool) :
    ∀ f, shrink_frontier_loop objs f = 0 ∨
      (objs.getD (shrink_frontier_loop objs f) defaultObjectInPool).is_used = true := by
  intro f
  induction f with
  | zero => left; rfl
  | succ f ih =>
    unfold shrink_frontier_loop
    split
    · right; assumption
    · exact ih

theorem shrink_frontier_loop_interval (objs : List ObjectInPool) :
    ∀ f j, shrink_frontier_loop objs f < j → j ≤ f →
      (objs.getD j defaultObjectInPool).is_used = false := by
  intro f
  induction f with
  | zero => intro j h1 h2; omega
  | succ f ih =>
    intro j h1 h2
    by_cases hu : (objs.getD (f + 1) defaultObjectInPool).is_used = true
    · rw [shrink_frontier_loop] at h1
      simp only [hu, if_true] at h1
      omega
    · rcases Nat.eq_or_lt_of_le h2 with rfl | hlt
      · exact Bool.not_eq_true _ ▸ hu
      · rw [shrink_frontier_loop] at h1
        simp only [hu, if_false] at h1
        exact ih j h1 (by omega)

/-! ### Claim theorems -/

/-- C1: the claim states that `Release(id)` on an id that does not map to an
in-use slot fails with `AccessViolation` and leaves the pool unchanged.  The
code instead reads the index through `_pointers[id]`, whose `operator[]`
inserts a default entry `id -> 0` for an absent id.  On `poolOne` (one live
object, id 0 at slot 0), `Release(1)` therefore resolves the never-allocated
id 1 to slot 0, finds it in use, and silently releases the wrong object: no
error is raised, slot 0 is freed, the live count drops to 0, and id 0 is
left dangling in the id table.  On `poolOneReleased` (slot 0 free),
`Release(5)` does throw `AccessViolation`, but the spurious entry `5 -> 0`
remains in the id table, so the state is not left unchanged either. -/
theorem C1_release_invalid_id_code_bug :
    (lookupPtr poolOne.pointers 1 = none ∧
      (getSlot poolOne 0).is_used = true ∧
      (Release poolOne 1).2 = none ∧
      (getSlot (Release poolOne 1).1 0).is_used = false ∧
      (Release poolOne 1).1.allocated_objects_count = 0 ∧
      lookupPtr (Release poolOne 1).1.pointers 0 = some 0) ∧
    (lookupPtr poolOneReleased.pointers 5 = none ∧
      (Release poolOneReleased 5).2 = some PoolError.AccessViolation ∧
      lookupPtr (Release poolOneReleased 5).1.pointers 5 = some 0) := by
  decide

/-- C2 counterexample: after `Alloc` (handle `ptrOne`, cache generation 0)
and `Release(0)`, no Defrag has happened, so the handle's cached generation
still matches `_defrags_count` and `operator*` returns the cached pointer
without any check: dereferencing the released handle succeeds instead of
failing with `AccessViolation`. -/
theorem C2_stale_cache_counterexample :
    (Release poolOne 0).2 = none ∧
    lookupPtr poolOneReleased.pointers 0 = none ∧
    ptrOne.id = 0 ∧
    derefPtr poolOneReleased ptrOne = Except.ok (0, ptrOne) := by
  decide

/-- C2 amended: dereferencing a handle whose cached generation equals the
pool's defrag count returns the cached slot's object with no validity check
at all (so a released id is returned silently); only when the generation is
stale does the dereference consult the id table, and an id absent from the
table (released) then fails — with the `std::out_of_range` thrown by
`_pointers.at`, not with `AccessViolation`. -/
theorem C2_resolve_amended (p : ObjectsPool) (ptr : ObjectPtr) :
    (ptr.pool_defrag_version = p.defrags_count →
      derefPtr p ptr = Except.ok ((getSlot p ptr.cached_idx).obj, ptr)) ∧
    (ptr.pool_defrag_version ≠ p.defrags_count →
      lookupPtr p.pointers ptr.id = none →
      derefPtr p ptr = Except.error PoolError.StdOutOfRange) := by
  refine ⟨fun h => ?_, fun h hl => ?_⟩
  · simp [derefPtr, h]
  · simp [derefPtr, h, hl]

/-- A handle for id 0 whose cached generation (7) is stale. -/
def ptrStale : ObjectPtr := { id := 0, cached_idx := 0, pool_defrag_version := 7 }

/-- Witness for the amended C2 theorem at concrete inputs: the fresh-cache
case on `ptrOne` and the stale-cache case on `ptrStale`, both against
`poolOneReleased`. -/
theorem C2_resolve_amended_witness :
    (ptrOne.pool_defrag_version = poolOneReleased.defrags_count ∧
      derefPtr poolOneReleased ptrOne =
        Except.ok ((getSlot poolOneReleased ptrOne.cached_idx).obj, ptrOne)) ∧
    ((ptrStale.pool_defrag_version ≠ poolOneReleased.defrags_count ∧
      lookupPtr poolOneReleased.pointers ptrStale.id = none) ∧
      derefPtr poolOneReleased ptrStale = Except.error PoolError.StdOutOfRange) :=
  ⟨⟨by decide, (C2_resolve_amended poolOneReleased ptrOne).1 (by decide)⟩,
   ⟨⟨by decide, by decide⟩,
    (C2_resolve_amended poolOneReleased ptrStale).2 (by decide) (by decide)⟩⟩

/-- C3 counterexample: `poolFrontierHole` is reached from a fresh pool by
three Allocs, `Release(1)` (hole at slot 1) and `Release(2)` (trivial tail
release, which steps the frontier down onto the freed slot 1).  `Defrag`
pops the hole 1, sees `1 >= _max_used_index_in_vector = 1` and skips it, so
afterwards the free-list is empty but slot 1 — an index inside
`[0, frontier] = [0, 1]` — is not in use: the packed-prefix half of the
claim fails. -/
theorem C3_packing_counterexample :
    (Release poolThree 1).2 = none ∧
    (Release (Release poolThree 1).1 2).2 = none ∧
    (Defrag poolFrontierHole).holes_size = 0 ∧
    (Defrag poolFrontierHole).max_used_index_in_vector = 1 ∧
    (getSlot (Defrag poolFrontierHole) 1).is_used = false := by
  decide

/-- C3 amended: immediately after any call to `Defrag` the free-list is
empty (the hole-closing loop pops until `_holes.size()` is zero, and the
optional trim does not touch the free-list); the packed-prefix part of the
claim does not hold in general, because the frontier can rest on a slot
freed by a trivial tail release, as the counterexample shows. -/
theorem C3_defrag_empties_free_list (p : ObjectsPool) : (Defrag p).holes_size = 0 := by
  by_cases h0 : p.holes_size = 0
  · simp [Defrag, h0]
  · simp only [Defrag, if_neg h0]
    split
    · rw [ClearUnusedMemory_fst_holes_size]
      exact close_holes_size _ _ (Nat.le_refl _)
    · exact close_holes_size _ _ (Nat.le_refl _)

/-- C5 counterexample: the claim explicitly includes the freshly constructed
pool, but the constructor initialises `_max_used_index_in_vector = 0` with
an empty `_objects` vector, so `frontier < slots.length()` reads `0 < 0`
and is false on that very state. -/
theorem C5_fresh_pool_counterexample :
    ¬ (mkPool 0 0 1024 DefragModes.DEFRAG_DEFERRED).max_used_index_in_vector <
      (mkPool 0 0 1024 DefragModes.DEFRAG_DEFERRED).objects.length := by
  decide

theorem clear_frontier_not_lt_length (p : ObjectsPool) :
    ¬ (Clear p).max_used_index_in_vector < (Clear p).objects.length := by
  simp [Clear]

theorem release_last_underflow (p : ObjectsPool)
    (hptr : p.pointers = [(0, 0)])
    (hobj : p.objects = [{ obj := 0, id := 0, is_used := true }])
    (hfr : p.max_used_index_in_vector = 0)
    (hlive : p.allocated_objects_count = 1) :
    (Release p 0).2 = none ∧
    (Release p 0).1.max_used_index_in_vector = W - 1 ∧
    (Release p 0).1.objects.length = 1 ∧
    (Release p 0).1.allocated_objects_count = 0 := by
  have hw0 : wdec 0 = W - 1 := by decide
  have hw1 : wdec 1 = 0 := by decide
  simp [Release, bracketPtr, lookupPtr, getSlot, erasePtr, hptr, hobj, hfr, hlive,
    hw0, hw1]

/-- C5 amended: `live_count ≤ slots.length()` holds on the freshly
constructed pool, after the first Alloc, after Clear and after the Release
of the last live object, and `frontier < slots.length()` holds immediately
after the first Alloc; but `frontier < slots.length()` fails on the fresh
pool and the just-Cleared pool (both sides 0), and fails again after the
last object is Released, because `_max_used_index_in_vector--` underflows
the `size_t` frontier to `2^64 - 1`.  Stated for every pool configuration
(max size, reserve, shrink threshold, defrag mode). -/
theorem C5_invariants_amended (ms rs th : Nat) (mode : DefragModes) :
    (¬ (mkPool ms rs th mode).max_used_index_in_vector <
        (mkPool ms rs th mode).objects.length ∧
      (mkPool ms rs th mode).allocated_objects_count ≤
        (mkPool ms rs th mode).objects.length) ∧
    ((allocResult (mkPool ms rs th mode)).1.max_used_index_in_vector <
        (allocResult (mkPool ms rs th mode)).1.objects.length ∧
      (allocResult (mkPool ms rs th mode)).1.allocated_objects_count ≤
        (allocResult (mkPool ms rs th mode)).1.objects.length) ∧
    (¬ (Clear (allocResult (mkPool ms rs th mode)).1).max_used_index_in_vector <
        (Clear (allocResult (mkPool ms rs th mode)).1).objects.length) ∧
    ((Release (allocResult (mkPool ms rs th mode)).1 0).2 = none ∧
      (Release (allocResult (mkPool ms rs th mode)).1 0).1.max_used_index_in_vector =
        W - 1 ∧
      ¬ (Release (allocResult (mkPool ms rs th mode)).1 0).1.max_used_index_in_vector <
        (Release (allocResult (mkPool ms rs th mode)).1 0).1.objects.length ∧
      (Release (allocResult (mkPool ms rs th mode)).1 0).1.allocated_objects_count ≤
        (Release (allocResult (mkPool ms rs th mode)).1 0).1.objects.length) := by
  have h1 : ¬((mkPool ms rs th mode).max_size ≠ 0 ∧
      (mkPool ms rs th mode).allocated_objects_count ≥ (mkPool ms rs th mode).max_size) := by
    simp only [mkPool]
    omega
  have hA : Alloc (mkPool ms rs th mode) = Except.ok
      ({ mkPool ms rs th mode with
          objects := [{ obj := 0, id := 0, is_used := true }],
          pointers := [(0, 0)], allocated_objects_count := 1, next_object_id := 1 },
        { id := 0, cached_idx := 0, pool_defrag_version := 0 }) := by
    unfold Alloc
    rw [if_neg h1]
    rfl
  have hAR : allocResult (mkPool ms rs th mode) =
      ({ mkPool ms rs th mode with
          objects := [{ obj := 0, id := 0, is_used := true }],
          pointers := [(0, 0)], allocated_objects_count := 1, next_object_id := 1 },
        { id := 0, cached_idx := 0, pool_defrag_version := 0 }) := by
    unfold allocResult
    rw [hA]
  rw [hAR]
  simp only [mkPool]
  have hrel := release_last_underflow
    { objects := [{ obj := 0, id := 0, is_used := true }], pointers := [(0, 0)],
      holes_size := 0, holes_first := 0, next_object_id := 1, max_size := ms,
      allocated_objects_count := 1, max_used_index_in_vector := 0,
      shrink_pool_threshold := th, defrag_mode := mode, defrags_count := 0 }
    rfl rfl rfl rfl
  refine ⟨⟨by decide, by decide⟩, ⟨by decide, by decide⟩,
    clear_frontier_not_lt_length _, hrel.1, hrel.2.1, ?_, ?_⟩
  · rw [hrel.2.1, hrel.2.2.1]
    decide
  · rw [hrel.2.2.1, hrel.2.2.2]
    decide

/-- C6: with a configured `max_size = K ≠ 0`, `Alloc` throws
`ExceededPoolLimit` (the `CapacityExceeded` of the spec) exactly when
`live_count ≥ K` at the moment of the call; the capacity test is the only
throwing path of `Alloc`, so whenever `live_count < K` — in particular right
after a `Release` dropped the count below `K` — the call returns a handle. -/
theorem C6_capacity_iff (p : ObjectsPool) (hK : p.max_size ≠ 0) :
    (Alloc p = Except.error PoolError.ExceededPoolLimit ↔
      p.allocated_objects_count ≥ p.max_size) ∧
    (∀ e : PoolError, Alloc p = Except.error e → e = PoolError.ExceededPoolLimit) := by
  by_cases hc : p.max_size ≠ 0 ∧ p.allocated_objects_count ≥ p.max_size
  · constructor
    · exact iff_of_true (by unfold Alloc; rw [if_pos hc]) hc.2
    · intro e he
      unfold Alloc at he
      rw [if_pos hc] at he
      exact (Except.error.inj he).symm
  · have hX : ∀ e : PoolError, ¬ (Alloc p = Except.error e) := by
      intro e he
      unfold Alloc at he
      rw [if_neg hc] at he
      split at he
      · exact Except.noConfusion he
      · split at he
        · exact Except.noConfusion he
        · exact Except.noConfusion he
    exact ⟨iff_of_false (hX _) fun hge => hc ⟨hK, hge⟩, fun e he => absurd he (hX e)⟩

/-- Witness for C6 on `poolCap`: `max_size = 1`, one live object, and the
next `Alloc` fails with the capacity error. -/
theorem C6_capacity_iff_witness :
    poolCap.max_size ≠ 0 ∧ poolCap.allocated_objects_count ≥ poolCap.max_size ∧
    Alloc poolCap = Except.error PoolError.ExceededPoolLimit :=
  ⟨by decide, by decide, (C6_capacity_iff poolCap (by decide)).1.mpr (by decide)⟩

theorem list_resize_length (l : List ObjectInPool) (n : Nat) :
    (list_resize l n).length = n := by
  unfold list_resize
  split
  · rename_i h
    simp [List.length_take]
    omega
  · rename_i h
    simp
    omega

theorem list_resize_getD (l : List ObjectInPool) (n i : Nat)
    (hi : i < n) (hil : i < l.length) :
    (list_resize l n).getD i defaultObjectInPool = l.getD i defaultObjectInPool := by
  unfold list_resize
  split
  · simp [List.getD_eq_getElem?_getD, List.getElem?_take_of_lt hi]
  · simp [List.getD_eq_getElem?_getD, List.getElem?_append_left hil]

/-- C10: `ClearUnusedMemory` throws `CannotResizeWhileNotDefragged` (the
spec's `NotDefragged`) exactly when the free-list is non-empty, in which
case nothing at all has been mutated; with an empty free-list it resizes the
backing vector to `_max_used_index_in_vector + 1` (size_t addition),
preserving the retained prefix and every other field. -/
theorem C10_clear_unused_memory (p : ObjectsPool) :
    (p.holes_size ≠ 0 →
      ClearUnusedMemory p = (p, some PoolError.CannotResizeWhileNotDefragged)) ∧
    (p.holes_size = 0 →
      (ClearUnusedMemory p).2 = none ∧
      (ClearUnusedMemory p).1.objects.length = (p.max_used_index_in_vector + 1) % W ∧
      (∀ i, i < (p.max_used_index_in_vector + 1) % W → i < p.objects.length →
        getSlot (ClearUnusedMemory p).1 i = getSlot p i) ∧
      (ClearUnusedMemory p).1.pointers = p.pointers ∧
      (ClearUnusedMemory p).1.holes_size = p.holes_size ∧
      (ClearUnusedMemory p).1.max_used_index_in_vector = p.max_used_index_in_vector ∧
      (ClearUnusedMemory p).1.allocated_objects_count = p.allocated_objects_count) := by
  constructor
  · intro h
    simp [ClearUnusedMemory, h]
  · intro h
    refine ⟨by simp [ClearUnusedMemory, h],
      by simp [ClearUnusedMemory, h, list_resize_length],
      fun i hi hil => ?_, by simp [ClearUnusedMemory, h],
      by simp [ClearUnusedMemory, h], by simp [ClearUnusedMemory, h],
      by simp [ClearUnusedMemory, h]⟩
    simp only [ClearUnusedMemory, h, if_neg (by simp : ¬ (0 : Nat) ≠ 0), getSlot]
    exact list_resize_getD _ _ _ hi hil

/-- Witness for C10: the failing branch on `poolFrontierHole` (one pending
hole) and the resizing branch on `poolOne`. -/
theorem C10_clear_unused_memory_witness :
    (poolFrontierHole.holes_size ≠ 0 ∧
      ClearUnusedMemory poolFrontierHole =
        (poolFrontierHole, some PoolError.CannotResizeWhileNotDefragged)) ∧
    (poolOne.holes_size = 0 ∧
      (ClearUnusedMemory poolOne).2 = none ∧
      (ClearUnusedMemory poolOne).1.objects.length =
        (poolOne.max_used_index_in_vector + 1) % W) :=
  ⟨⟨by decide, (C10_clear_unused_memory poolFrontierHole).1 (by decide)⟩,
   ⟨by decide, ((C10_clear_unused_memory poolOne).2 (by decide)).1,
    ((C10_clear_unused_memory poolOne).2 (by decide)).2.1⟩⟩

/-- C4 counterexample: in `poolFrontierHoleBumped` (reachable; the state on
which Defrag's loop runs after the generation bump) the popped hole index
equals the frontier (`h = frontier = 1`).  The claim says a hole is skipped
exactly when `h > frontier`, so here it demands a relocation, an id-table
update and a frontier decrease; the code's test is `h >= frontier`, so the
step only pops the hole and changes nothing else. -/
theorem C4_skip_at_frontier_counterexample :
    poolFrontierHoleBumped.holes_size = 1 ∧
    poolFrontierHoleBumped.holes_first =
      poolFrontierHoleBumped.max_used_index_in_vector ∧
    defrag_close_one poolFrontierHoleBumped =
      { poolFrontierHoleBumped with holes_size := 0 } := by
  decide

/-- C4 amended: a hole-closing step of Defrag pops the head `h` of the
free-list and skips it exactly when `h ≥ frontier` (not `h > frontier`);
when `h < frontier` it moves the slot at the frontier into slot `h` (the
source slot becoming unused with id `ObjectPoolMaxIndex`), maps the moved
slot's id to `h` in the id table, and walks the frontier down past trailing
unused slots to land on an in-use slot or 0.  The in-bounds hypotheses
mirror the vector accesses the C++ performs. -/
theorem C4_close_step_amended (p : ObjectsPool) (hs : p.holes_size ≠ 0)
    (hW : p.max_used_index_in_vector < W)
    (hb : p.holes_first < p.objects.length)
    (hf : p.max_used_index_in_vector < p.objects.length) :
    (p.holes_first ≥ p.max_used_index_in_vector →
      defrag_close_one p = (holes_pop p).2) ∧
    (p.holes_first < p.max_used_index_in_vector →
      getSlot (defrag_close_one p) p.holes_first =
        getSlot p p.max_used_index_in_vector ∧
      getSlot (defrag_close_one p) p.max_used_index_in_vector =
        { getSlot p p.max_used_index_in_vector with
            id := ObjectPoolMaxIndex, is_used := false } ∧
      lookupPtr (defrag_close_one p).pointers
        (getSlot p p.max_used_index_in_vector).id = some p.holes_first ∧
      (defrag_close_one p).max_used_index_in_vector ≤
        p.max_used_index_in_vector - 1 ∧
      ((defrag_close_one p).max_used_index_in_vector = 0 ∨
        (getSlot (defrag_close_one p)
          (defrag_close_one p).max_used_index_in_vector).is_used = true) ∧
      (∀ j, (defrag_close_one p).max_used_index_in_vector < j →
        j < p.max_used_index_in_vector →
        (getSlot (defrag_close_one p) j).is_used = false) ∧
      (defrag_close_one p).holes_size = p.holes_size - 1) := by
  have hpf := holes_pop_fst p
  have hpo := holes_pop_objects p
  have hpm := holes_pop_frontier p
  have hpp := holes_pop_pointers p
  constructor
  · intro hge
    have hcond : (holes_pop p).1 ≥ (holes_pop p).2.max_used_index_in_vector := by
      rw [hpf, hpm]
      exact hge
    simp only [defrag_close_one]
    rw [if_pos hcond]
  · intro hlt
    have hcond : ¬ ((holes_pop p).1 ≥ (holes_pop p).2.max_used_index_in_vector) := by
      rw [hpf, hpm]
      omega
    have hwd : wdec p.max_used_index_in_vector = p.max_used_index_in_vector - 1 := by
      unfold wdec W
      unfold W at hW
      omega
    have hne : p.max_used_index_in_vector ≠ p.holes_first := by omega
    have heq : defrag_close_one p =
        { (holes_pop p).2 with
          objects :=
            (p.objects.set p.holes_first (getSlot p p.max_used_index_in_vector)).set
              p.max_used_index_in_vector
              { getSlot p p.max_used_index_in_vector with
                  id := ObjectPoolMaxIndex, is_used := false },
          max_used_index_in_vector :=
            shrink_frontier_loop
              ((p.objects.set p.holes_first (getSlot p p.max_used_index_in_vector)).set
                p.max_used_index_in_vector
                { getSlot p p.max_used_index_in_vector with
                    id := ObjectPoolMaxIndex, is_used := false })
              (p.max_used_index_in_vector - 1),
          pointers :=
            setPtr (holes_pop p).2.pointers
              (((p.objects.set p.holes_first (getSlot p p.max_used_index_in_vector)).set
                p.max_used_index_in_vector
                { getSlot p p.max_used_index_in_vector with
                    id := ObjectPoolMaxIndex, is_used := false }).getD
                p.holes_first defaultObjectInPool).id
              p.holes_first } := by
      have hgs : ∀ i, getSlot (holes_pop p).2 i = getSlot p i := fun i => by
        unfold getSlot
        rw [hpo]
      simp only [defrag_close_one]
      rw [if_neg hcond]
      simp only [hpf, hpo, hpm, hwd, hgs]
    have hgetmoved :
        ((p.objects.set p.holes_first (getSlot p p.max_used_index_in_vector)).set
          p.max_used_index_in_vector
          { getSlot p p.max_used_index_in_vector with
              id := ObjectPoolMaxIndex, is_used := false }).getD
          p.holes_first defaultObjectInPool = getSlot p p.max_used_index_in_vector := by
      rw [List.getD_eq_getElem?_getD, List.getElem?_set_ne hne,
        List.getElem?_set_self hb]
      rfl
    have hgetsrc :
        ((p.objects.set p.holes_first (getSlot p p.max_used_index_in_vector)).set
          p.max_used_index_in_vector
          { getSlot p p.max_used_index_in_vector with
              id := ObjectPoolMaxIndex, is_used := false }).getD
          p.max_used_index_in_vector defaultObjectInPool =
          { getSlot p p.max_used_index_in_vector with
              id := ObjectPoolMaxIndex, is_used := false } := by
      rw [List.getD_eq_getElem?_getD,
        List.getElem?_set_self (by rw [List.length_set]; exact hf)]
      rfl
    refine ⟨?_, ?_, ?_, ?_, ?_, ?_, ?_⟩
    · rw [heq]
      exact hgetmoved
    · rw [heq]
      exact hgetsrc
    · rw [heq]
      simp only [hgetmoved, hpp]
      exact lookupPtr_setPtr_self _ _ _
    · rw [heq]
      exact shrink_frontier_loop_le _ _
    · rw [heq]
      exact shrink_frontier_loop_stop _ _
    · intro j hj1 hj2
      rw [heq] at hj1 ⊢
      exact shrink_frontier_loop_interval _ _ j hj1 (by omega)
    · exact defrag_close_one_size p hs

/-- `poolShrinkPre` with the defrag counter bumped: the state on which the
hole-closing step with `h < frontier` actually runs. -/
def poolShrinkPreBumped : ObjectsPool := { poolShrinkPre with defrags_count := 1 }

/-- Witness for the amended C4 theorem: the skip case on
`poolFrontierHoleBumped` (hole 1, frontier 1) and the relocation case on
`poolShrinkPreBumped` (hole 1, frontier 2), where the moved id 2 ends up
mapped to slot 1. -/
theorem C4_close_step_amended_witness :
    ((poolFrontierHoleBumped.holes_size ≠ 0 ∧
      poolFrontierHoleBumped.max_used_index_in_vector < W ∧
      poolFrontierHoleBumped.holes_first < poolFrontierHoleBumped.objects.length ∧
      poolFrontierHoleBumped.max_used_index_in_vector <
        poolFrontierHoleBumped.objects.length ∧
      poolFrontierHoleBumped.holes_first ≥
        poolFrontierHoleBumped.max_used_index_in_vector) ∧
      defrag_close_one poolFrontierHoleBumped = (holes_pop poolFrontierHoleBumped).2) ∧
    ((poolShrinkPreBumped.holes_first < poolShrinkPreBumped.max_used_index_in_vector) ∧
      lookupPtr (defrag_close_one poolShrinkPreBumped).pointers
        (getSlot poolShrinkPreBumped poolShrinkPreBumped.max_used_index_in_vector).id =
        some poolShrinkPreBumped.holes_first) :=
  ⟨⟨⟨by decide, by decide, by decide, by decide, by decide⟩,
    (C4_close_step_amended poolFrontierHoleBumped (by decide) (by decide) (by decide)
      (by decide)).1 (by decide)⟩,
   ⟨by decide,
    (((C4_close_step_amended poolShrinkPreBumped (by decide) (by decide) (by decide)
      (by decide)).2 (by decide)).2.2).1⟩⟩

theorem holes_pop_next (p : ObjectsPool) :
    (holes_pop p).2.next_object_id = p.next_object_id := by
  unfold holes_pop
  split <;> [rfl; split <;> rfl]

theorem AssignObject_lookup (q : ObjectsPool) (i : Nat) :
    lookupPtr (AssignObject q i).1.pointers q.next_object_id = some i := by
  simp only [AssignObject]
  exact lookupPtr_setPtr_self _ _ _

theorem AssignObject_cached_idx (q : ObjectsPool) (i : Nat) :
    (AssignObject q i).2.cached_idx = i := rfl

theorem AssignObject_length (q : ObjectsPool) (i : Nat) :
    (AssignObject q i).1.objects.length = q.objects.length := by
  simp [AssignObject]

theorem AssignObject_holes_size (q : ObjectsPool) (i : Nat) :
    (AssignObject q i).1.holes_size = q.holes_size := rfl

/-- C7: when `Alloc` does not fail on capacity, it picks the slot for the
new object in this priority order: pop the free-list head and reuse that
index; otherwise reuse the tail index `frontier + 1` (size_t addition) when
it lies below the current vector length; otherwise append a fresh
default-constructed slot at index `slots.length()`.  In every case the new
id `next_object_id` is mapped to the chosen index in the id table and the
returned handle's cache points at that index. -/
theorem C7_alloc_index_priority (p : ObjectsPool)
    (hcap : ¬ (p.max_size ≠ 0 ∧ p.allocated_objects_count ≥ p.max_size)) :
    (p.holes_size ≠ 0 →
      Alloc p = Except.ok (AssignObject (holes_pop p).2 p.holes_first) ∧
      lookupPtr (allocResult p).1.pointers p.next_object_id = some p.holes_first ∧
      (allocResult p).2.cached_idx = p.holes_first ∧
      (allocResult p).1.objects.length = p.objects.length ∧
      (allocResult p).1.holes_size = p.holes_size - 1) ∧
    (p.holes_size = 0 → (p.max_used_index_in_vector + 1) % W < p.objects.length →
      Alloc p = Except.ok (AssignObject p ((p.max_used_index_in_vector + 1) % W)) ∧
      lookupPtr (allocResult p).1.pointers p.next_object_id =
        some ((p.max_used_index_in_vector + 1) % W) ∧
      (allocResult p).2.cached_idx = (p.max_used_index_in_vector + 1) % W ∧
      (allocResult p).1.objects.length = p.objects.length ∧
      (allocResult p).1.holes_size = 0) ∧
    (p.holes_size = 0 → ¬ ((p.max_used_index_in_vector + 1) % W < p.objects.length) →
      lookupPtr (allocResult p).1.pointers p.next_object_id =
        some p.objects.length ∧
      (allocResult p).2.cached_idx = p.objects.length ∧
      (allocResult p).1.objects.length = p.objects.length + 1 ∧
      (allocResult p).1.holes_size = 0) := by
  refine ⟨fun h1 => ?_, fun h1 h2 => ?_, fun h1 h2 => ?_⟩
  · have hA : Alloc p = Except.ok (AssignObject (holes_pop p).2 p.holes_first) := by
      unfold Alloc
      rw [if_neg hcap, if_pos h1]
      simp only [holes_pop_fst]
    have hAR : allocResult p = AssignObject (holes_pop p).2 p.holes_first := by
      unfold allocResult
      rw [hA]
    refine ⟨hA, ?_, ?_, ?_, ?_⟩
    · rw [hAR, ← holes_pop_next p]
      exact AssignObject_lookup _ _
    · rw [hAR]
      exact AssignObject_cached_idx _ _
    · rw [hAR, AssignObject_length, holes_pop_objects]
    · rw [hAR, AssignObject_holes_size]
      exact holes_pop_size p h1
  · have hA : Alloc p =
        Except.ok (AssignObject p ((p.max_used_index_in_vector + 1) % W)) := by
      unfold Alloc
      rw [if_neg hcap, if_neg (fun hn => hn h1), if_pos h2]
    have hAR : allocResult p = AssignObject p ((p.max_used_index_in_vector + 1) % W) := by
      unfold allocResult
      rw [hA]
    refine ⟨hA, ?_, ?_, ?_, ?_⟩
    · rw [hAR]
      exact AssignObject_lookup _ _
    · rw [hAR]
      exact AssignObject_cached_idx _ _
    · rw [hAR, AssignObject_length]
    · rw [hAR, AssignObject_holes_size, h1]
  · have hA : Alloc p = Except.ok
        (AssignObject { p with objects := p.objects ++ [defaultObjectInPool] }
          p.objects.length) := by
      unfold Alloc
      rw [if_neg hcap, if_neg (fun hn => hn h1), if_neg h2]
    have hAR : allocResult p =
        AssignObject { p with objects := p.objects ++ [defaultObjectInPool] }
          p.objects.length := by
      unfold allocResult
      rw [hA]
    refine ⟨?_, ?_, ?_, ?_⟩
    · rw [hAR]
      exact AssignObject_lookup _ _
    · rw [hAR]
      exact AssignObject_cached_idx _ _
    · rw [hAR, AssignObject_length]
      simp
    · rw [hAR, AssignObject_holes_size, h1]

/-- `poolThree` after a trivial tail release of id 2: the frontier drops to
1 while the vector keeps length 3 and the free-list stays empty, leaving
reusable tail capacity at index 2. -/
def poolTail : ObjectsPool := (Release poolThree 2).1

/-- Witness for C7 exercising all three priority cases: the hole-reuse case
on `poolShrinkPre` (free-list head 1), the tail-reuse case on `poolTail`
(index `frontier + 1 = 2`), and the append case on `poolOne` (index 1 =
old length). -/
theorem C7_alloc_index_priority_witness :
    (poolShrinkPre.holes_size ≠ 0 ∧
      lookupPtr (allocResult poolShrinkPre).1.pointers poolShrinkPre.next_object_id =
        some poolShrinkPre.holes_first) ∧
    ((poolTail.holes_size = 0 ∧
      (poolTail.max_used_index_in_vector + 1) % W < poolTail.objects.length) ∧
      lookupPtr (allocResult poolTail).1.pointers poolTail.next_object_id =
        some ((poolTail.max_used_index_in_vector + 1) % W)) ∧
    ((poolOne.holes_size = 0 ∧
      ¬ ((poolOne.max_used_index_in_vector + 1) % W < poolOne.objects.length)) ∧
      lookupPtr (allocResult poolOne).1.pointers poolOne.next_object_id =
        some poolOne.objects.length ∧
      (allocResult poolOne).1.objects.length = poolOne.objects.length + 1) :=
  ⟨⟨by decide,
    ((C7_alloc_index_priority poolShrinkPre (by decide)).1 (by decide)).2.1⟩,
   ⟨⟨by decide, by decide⟩,
    ((C7_alloc_index_priority poolTail (by decide)).2.1 (by decide) (by decide)).2.1⟩,
   ⟨⟨by decide, by decide⟩,
    ((C7_alloc_index_priority poolOne (by decide)).2.2 (by decide) (by decide)).1,
    ((C7_alloc_index_priority poolOne (by decide)).2.2 (by decide) (by decide)).2.2.1⟩⟩

/-- C9 counterexample: `poolShrinkPre` has `shrink_threshold = 1`; after the
hole is closed the vector length is 3 and the frontier 1, so the claim's
condition `slots.length() - (frontier + 1) = 1 > 1` is false and it predicts
the backing array stays at length 3.  The code tests
`_objects.size() - _max_used_index_in_vector = 2 > 1` and trims to length 2. -/
theorem C9_shrink_threshold_counterexample :
    poolShrinkPre.shrink_pool_threshold = 1 ∧
    (close_holes poolShrinkPre.holes_size
      { poolShrinkPre with
          defrags_count := (poolShrinkPre.defrags_count + 1) % UINTW }).objects.length
      = 3 ∧
    (close_holes poolShrinkPre.holes_size
      { poolShrinkPre with
          defrags_count := (poolShrinkPre.defrags_count + 1) % UINTW
      }).max_used_index_in_vector = 1 ∧
    ¬ (3 - (1 + 1) > 1) ∧
    (Defrag poolShrinkPre).objects.length = 2 := by
  decide

/-- C9 amended: after Defrag finishes closing holes (state `q`), it trims
the backing array to `frontier + 1` if and only if the size_t difference
`slots.length() - frontier` — not `slots.length() - (frontier + 1)` —
exceeds `shrink_threshold`; otherwise the array is left unchanged. -/
theorem C9_shrink_condition_amended (p : ObjectsPool) (hs : p.holes_size ≠ 0) :
    let q := close_holes p.holes_size
      { p with defrags_count := (p.defrags_count + 1) % UINTW }
    (wsub q.objects.length q.max_used_index_in_vector > q.shrink_pool_threshold →
      Defrag p = (ClearUnusedMemory q).1 ∧
      (Defrag p).objects.length = (q.max_used_index_in_vector + 1) % W) ∧
    (¬ (wsub q.objects.length q.max_used_index_in_vector > q.shrink_pool_threshold) →
      Defrag p = q) := by
  intro q
  have hq0 : q.holes_size = 0 := close_holes_size _ _ (Nat.le_refl _)
  constructor
  · intro hgt
    have hD : Defrag p = (ClearUnusedMemory q).1 := by
      simp only [Defrag, if_neg hs]
      rw [if_pos hgt]
    refine ⟨hD, ?_⟩
    rw [hD]
    simp only [ClearUnusedMemory]
    rw [if_neg (show ¬ q.holes_size ≠ 0 from fun hn => hn hq0)]
    exact list_resize_length _ _
  · intro hle
    simp only [Defrag, if_neg hs]
    rw [if_neg hle]

/-- Witness for the amended C9 theorem on `poolShrinkPre`: the trim
condition holds (`wsub 3 1 = 2 > 1`) and Defrag leaves the vector at
length 2 = frontier + 1. -/
theorem C9_shrink_condition_amended_witness :
    (wsub
      (close_holes poolShrinkPre.holes_size
        { poolShrinkPre with
            defrags_count := (poolShrinkPre.defrags_count + 1) % UINTW }).objects.length
      (close_holes poolShrinkPre.holes_size
        { poolShrinkPre with
            defrags_count := (poolShrinkPre.defrags_count + 1) % UINTW
        }).max_used_index_in_vector >
      (close_holes poolShrinkPre.holes_size
        { poolShrinkPre with
            defrags_count := (poolShrinkPre.defrags_count + 1) % UINTW
        }).shrink_pool_threshold) ∧
    (Defrag poolShrinkPre).objects.length =
      ((close_holes poolShrinkPre.holes_size
        { poolShrinkPre with
            defrags_count := (poolShrinkPre.defrags_count + 1) % UINTW
        }).max_used_index_in_vector + 1) % W :=
  ⟨by decide,
   ((C9_shrink_condition_amended poolShrinkPre (by decide)).1 (by decide)).2⟩

theorem range_filterMap_scan (l : List ObjectInPool) (n : Nat) :
    (List.range n).filterMap (fun i =>
      if (l.getD i defaultObjectInPool).is_used then
        some ((l.getD i defaultObjectInPool).obj, (l.getD i defaultObjectInPool).id)
      else none) = usedEntries (l.take n) := by
  induction n with
  | zero => rfl
  | succ n ih =>
    rw [List.range_succ, List.filterMap_append, ih, List.take_succ]
    simp only [usedEntries, List.filterMap_append]
    congr 1
    cases hg : l[n]? with
    | none => simp [hg, defaultObjectInPool]
    | some a =>
      by_cases ha : a.is_used = true <;> simp [List.filterMap_cons, hg, ha]

theorem usedEntries_take_of_unused (l : List ObjectInPool) (n : Nat)
    (h : ∀ j, j < l.length → n ≤ j → (l.getD j defaultObjectInPool).is_used = false) :
    usedEntries (l.take n) = usedEntries l := by
  conv_rhs => rw [← List.take_append_drop n l]
  simp only [usedEntries, List.filterMap_append]
  have hnil : (l.drop n).filterMap
      (fun s => if s.is_used then some (s.obj, s.id) else none) = [] := by
    rw [List.filterMap_eq_nil_iff]
    intro a ha
    obtain ⟨i, hi, hgi⟩ := List.mem_iff_getElem.mp ha
    have hlen : n + i < l.length := by
      rw [List.length_drop] at hi
      omega
    have hd : l.getD (n + i) defaultObjectInPool = a := by
      rw [List.getD_eq_getElem?_getD, List.getElem?_eq_getElem hlen, Option.getD_some,
        ← List.getElem_drop l]
      exact hgi
    have hun := h (n + i) hlen (by omega)
    rw [hd] at hun
    simp [hun]
  rw [hnil, List.append_nil]

theorem iterate_scan_eq (p : ObjectsPool)
    (hused : ∀ j, j < p.objects.length → p.max_used_index_in_vector < j →
      (getSlot p j).is_used = false) :
    iterate_scan p = usedEntries p.objects := by
  unfold iterate_scan
  simp only [getSlot]
  rw [range_filterMap_scan]
  refine usedEntries_take_of_unused _ _ (fun j hj hnj => ?_)
  exact hused j hj (by omega)

theorem iter_ex_go_continue (objs : List ObjectInPool)
    (cb : Nat → Nat → IterationReturnCode)
    (hc : ∀ a b, cb a b = IterationReturnCode.ITER_CONTINUE) :
    ∀ fuel i, iter_ex_go objs cb fuel i =
      (List.range' i fuel).filterMap (fun j =>
        if (objs.getD j defaultObjectInPool).is_used then
          some ((objs.getD j defaultObjectInPool).obj,
            (objs.getD j defaultObjectInPool).id)
        else none) := by
  intro fuel
  induction fuel with
  | zero => intro i; rfl
  | succ fuel ih =>
    intro i
    rw [List.range'_succ]
    simp only [iter_ex_go, List.filterMap_cons]
    by_cases hu : (objs.getD i defaultObjectInPool).is_used = true <;>
      simp only [List.getD_eq_getElem?_getD] at hu
    · simp [hu, hc, ih]
    · simp [hu, ih]

/-- C8: `Iterate` (and `IterateEx`) first performs a `Defrag` exactly when
the defrag mode is Deferred, then scans indices `0..=frontier` in increasing
order, invoking the visitor once per in-use slot and never for a released
slot.  Under the packing hypotheses on the scanned state `q` — frontier in
bounds and no in-use slot above the frontier, which hold for well-formed
pools — the visit list is exactly the `(object, id)` list of the live slots
in index order; `IterateEx` with a visitor that always continues visits the
same list. -/
theorem C8_iterate_visits_live (p : ObjectsPool)
    (cb : Nat → Nat → IterationReturnCode) :
    let q := if p.defrag_mode = DefragModes.DEFRAG_DEFERRED then Defrag p else p
    q.max_used_index_in_vector < q.objects.length →
    (∀ j, j < q.objects.length → q.max_used_index_in_vector < j →
      (getSlot q j).is_used = false) →
    (∀ a b, cb a b = IterationReturnCode.ITER_CONTINUE) →
    (Iterate p).1 = q ∧
    (Iterate p).2 = usedEntries q.objects ∧
    (IterateEx cb p).2 = usedEntries q.objects := by
  intro q _hfr hused hc
  have h2 : (Iterate p).2 = iterate_scan q := rfl
  have h3 : iterate_scan q = usedEntries q.objects := iterate_scan_eq q hused
  refine ⟨rfl, h2.trans h3, ?_⟩
  have h4 : (IterateEx cb p).2 =
      iter_ex_go q.objects cb (q.max_used_index_in_vector + 1) 0 := rfl
  rw [h4, iter_ex_go_continue q.objects cb hc (q.max_used_index_in_vector + 1) 0,
    ← List.range_eq_range']
  have h5 := range_filterMap_scan q.objects (q.max_used_index_in_vector + 1)
  rw [h5]
  refine usedEntries_take_of_unused _ _ (fun j hj hnj => ?_)
  exact hused j hj (by omega)

/-- Witness for C8 on `poolDeferredHole` (deferred mode, one hole): the
Defrag runs first, and both iteration variants visit exactly the two live
objects in index order. -/
theorem C8_iterate_visits_live_witness :
    ((Defrag poolDeferredHole).max_used_index_in_vector <
      (Defrag poolDeferredHole).objects.length ∧
      (∀ j, j < (Defrag poolDeferredHole).objects.length →
        (Defrag poolDeferredHole).max_used_index_in_vector < j →
        (getSlot (Defrag poolDeferredHole) j).is_used = false)) ∧
    (Iterate poolDeferredHole).2 = usedEntries (Defrag poolDeferredHole).objects ∧
    (IterateEx (fun _ _ => IterationReturnCode.ITER_CONTINUE) poolDeferredHole).2 =
      usedEntries (Defrag poolDeferredHole).objects :=
  ⟨⟨by decide, by decide⟩,
   (C8_iterate_visits_live poolDeferredHole
      (fun _ _ => IterationReturnCode.ITER_CONTINUE)
      (by decide) (by decide) (fun _ _ => rfl)).2.1,
   (C8_iterate_visits_live poolDeferredHole
      (fun _ _ => IterationReturnCode.ITER_CONTINUE)
      (by decide) (by decide) (fun _ _ => rfl)).2.2⟩

end DcmPool
